import Mathlib

/-!
Verification of the rack-mount bracket generator (rack-mount-generator.js).

The generator turns device dimensions into a list of geometric features
(axis-aligned boxes and extruded shapes) that together form one bracket
(single mode) or two half brackets (wide mode).  We embed the geometry
emission code shallowly: every `group.add(...)` call site in the source
becomes one `Feature` value carrying exactly the numeric arguments the
source computes, and the generator functions below follow the source's
control flow (the same conditionals, in the same order).  All numbers are
rationals; the source's floating-point literals (44.45, 15.875, ...) are
taken at their decimal values.
-/

namespace RackMount

/-- Bracket side / ear side, source strings 'left' and 'right'. -/
inductive Side
  | left
  | right
deriving DecidableEq, Repr

/-- Which of the four faceplate pieces around the opening a box is. -/
inductive FacePos
  | bottom
  | top
  | leftSide
  | rightSide
deriving DecidableEq, Repr

/-- One emitted geometry feature.  Boxes carry (size, center) exactly as the
source passes them to BoxGeometry / position.set; extruded features carry the
shape parameters and mesh position from their construction site. -/
inductive Feature
  | blankPlate (sx sy sz cx cy cz : ℚ)
  | facePiece (pos : FacePos) (sx sy sz cx cy cz : ℚ)
  | shelf (sx sy sz cx cy cz : ℚ)
  | shelfGusset (shelfDepth legHeight extrudeWidth px py pz : ℚ)
  | earBox (side : Side) (sx sy sz cx cy cz : ℚ)
  | earHoles (side : Side) (xStart xEnd holeX fpHeight thickness : ℚ) (holeYs : List ℚ)
  | flange (fHeight : ℚ) (holeYs : List ℚ) (frontHoleOffset px py pz extrudeWidth : ℚ)
  | cornerGusset (towardNeg : Bool) (gHeight gDepth extrudeWidth px py pz : ℚ)
deriving DecidableEq, Repr

/-- All generator inputs: the nine numeric parameters, the three boolean
flags and the ear side (the source reads the flags and ear side from the
form; they are inputs of the generation). -/
structure Params where
  width : ℚ
  height : ℚ
  depth : ℚ
  tolerance : ℚ
  wallThickness : ℚ
  shelfThickness : ℚ
  flangeThickness : ℚ
  gussetSize : ℚ
  shelfGussetWidth : ℚ
  addSupport : Bool
  addRackHoles : Bool
  isBlank : Bool
  earSide : Side
deriving DecidableEq, Repr

def RACK_HALF_WIDTH : ℚ := 225
def RACK_UNIT_HEIGHT : ℚ := 44.45
def EAR_WIDTH : ℚ := 15.875
def FULL_RACK_WIDTH : ℚ := RACK_HALF_WIDTH * 2
def FLANGE_DEPTH : ℚ := 50.8

/-- Source: isWideDeviceMode — wide mode iff width + 2*tolerance > 200. -/
def isWideDeviceMode (width tolerance : ℚ) : Bool :=
  decide (200 < width + 2 * tolerance)

def openingWidthP (p : Params) : ℚ := p.width + 2 * p.tolerance

def openingHeightP (p : Params) : ℚ := p.height + 2 * p.tolerance

/-- Wide mode: rackUnits = ceil(height / 25). -/
def rackUnitsW (p : Params) : ℤ := ⌈p.height / 25⌉

def faceplateHeightW (p : Params) : ℚ := (rackUnitsW p : ℚ) * RACK_UNIT_HEIGHT

def openingYW (p : Params) : ℚ := (faceplateHeightW p - openingHeightP p) / 2

def fullOpeningX (p : Params) : ℚ := (FULL_RACK_WIDTH - openingWidthP p) / 2

def localOpeningStart (p : Params) (side : Side) : ℚ :=
  match side with
  | .left => max 0 (fullOpeningX p)
  | .right => max 0 (fullOpeningX p - RACK_HALF_WIDTH)

def localOpeningEnd (p : Params) (side : Side) : ℚ :=
  match side with
  | .left => min RACK_HALF_WIDTH (fullOpeningX p + openingWidthP p)
  | .right => min RACK_HALF_WIDTH (fullOpeningX p + openingWidthP p - RACK_HALF_WIDTH)

def localOpeningWidth (p : Params) (side : Side) : ℚ :=
  localOpeningEnd p side - localOpeningStart p side

/-- Source: the per-rack-unit mounting hole loop (identical in both the
single-mode and wide-mode code): per unit u it pushes u*44.45 + 6.35,
u*44.45 + 22.225 and u*44.45 + 38.1. -/
def rackHolePositions (rackUnits : ℤ) : List ℚ :=
  (List.range rackUnits.toNat).flatMap fun u : ℕ =>
    [(u : ℚ) * RACK_UNIT_HEIGHT + 6.35,
     (u : ℚ) * RACK_UNIT_HEIGHT + 22.225,
     (u : ℚ) * RACK_UNIT_HEIGHT + 38.1]

/-- Source: hole Y positions of a wide-mode joining flange of height fh
(the bottom- and top-flange code both use this computation). -/
def flangeHoleYs (fh : ℚ) : List ℚ :=
  if 6 ≤ fh then
    if 20 ≤ fh then
      let numHoles : ℤ := max 1 ⌊fh / 20⌋
      let usableHeight := fh - 2 * 5
      let spacing := if 1 < numHoles then usableHeight / ((numHoles : ℚ) - 1) else 0
      (List.range numHoles.toNat).map fun i : ℕ =>
        5 + (if 1 < numHoles then (i : ℚ) * spacing else usableHeight / 2)
    else [fh / 2]
  else []

/-- Source: numJoiningHoles = max(2, floor(faceplateHeight / 30)). -/
def numJoiningHoles (fh : ℚ) : ℤ := max 2 ⌊fh / 30⌋

/-- Source: single-mode joining flange hole Y positions,
i * spacing for i = 1..numJoiningHoles with spacing = fh/(n+1). -/
def joiningHoleYs (fh : ℚ) : List ℚ :=
  (List.range (numJoiningHoles fh).toNat).map fun i : ℕ =>
    ((i : ℚ) + 1) * (fh / ((numJoiningHoles fh : ℚ) + 1))

/-- Wide bracket: faceplate pieces (blank plate, or up to four boxes
around the local slice of the opening). -/
def widePlate (p : Params) (side : Side) : List Feature :=
  let fh := faceplateHeightW p
  let ft := p.wallThickness
  let oh := openingHeightP p
  let oy := openingYW p
  if p.isBlank then
    [.blankPlate RACK_HALF_WIDTH fh ft (RACK_HALF_WIDTH / 2) (fh / 2) (-(ft / 2))]
  else
    (if 0 < oy then
      [.facePiece .bottom RACK_HALF_WIDTH oy ft (RACK_HALF_WIDTH / 2) (oy / 2) (-(ft / 2))]
     else []) ++
    (if 0 < fh - oy - oh then
      [.facePiece .top RACK_HALF_WIDTH (fh - oy - oh) ft (RACK_HALF_WIDTH / 2)
        (oy + oh + (fh - oy - oh) / 2) (-(ft / 2))]
     else []) ++
    (if 0 < localOpeningStart p side then
      [.facePiece .leftSide (localOpeningStart p side) oh ft (localOpeningStart p side / 2)
        (oy + oh / 2) (-(ft / 2))]
     else []) ++
    (if 0 < RACK_HALF_WIDTH - localOpeningEnd p side then
      [.facePiece .rightSide (RACK_HALF_WIDTH - localOpeningEnd p side) oh ft
        (localOpeningEnd p side + (RACK_HALF_WIDTH - localOpeningEnd p side) / 2)
        (oy + oh / 2) (-(ft / 2))]
     else [])

/-- Wide bracket: support shelf plus the single outer shelf gusset. -/
def wideShelf (p : Params) (side : Side) : List Feature :=
  let oy := openingYW p
  let ls := localOpeningStart p side
  let le := localOpeningEnd p side
  let lw := localOpeningWidth p side
  if p.addSupport = true ∧ p.isBlank = false ∧ 0 < lw then
    let sd := p.depth + 10
    let g := p.shelfGussetWidth
    let shelfStart := match side with | .left => ls - g | .right => ls
    let shelfW := lw + g
    let hasOuter : Bool := match side with
      | .left => decide (g < ls)
      | .right => decide (g < RACK_HALF_WIDTH - le)
    if 0 < shelfW then
      [.shelf shelfW p.shelfThickness sd (shelfStart + shelfW / 2)
        (oy - p.shelfThickness / 2) (-p.wallThickness - sd / 2)] ++
      (if hasOuter then
        [.shelfGusset sd p.height g (match side with | .left => ls - g | .right => le)
          oy (-p.wallThickness)]
       else [])
    else []
  else []

/-- Wide bracket: the rack ear on the outer edge (with or without holes). -/
def wideEar (p : Params) (side : Side) : List Feature :=
  let fh := faceplateHeightW p
  let ft := p.wallThickness
  if p.addRackHoles then
    [.earHoles side
      (match side with | .left => -EAR_WIDTH | .right => RACK_HALF_WIDTH)
      (match side with | .left => 0 | .right => RACK_HALF_WIDTH + EAR_WIDTH)
      (match side with | .left => -(EAR_WIDTH / 2) | .right => RACK_HALF_WIDTH + EAR_WIDTH / 2)
      fh ft (rackHolePositions (rackUnitsW p))]
  else
    [.earBox side EAR_WIDTH fh ft
      (match side with | .left => -(EAR_WIDTH / 2) | .right => RACK_HALF_WIDTH + EAR_WIDTH / 2)
      (fh / 2) (-(ft / 2))]

/-- Wide bracket: bottom and top joining flanges (emitted when their
height exceeds 5). -/
def wideFlanges (p : Params) (side : Side) : List Feature :=
  let fh := faceplateHeightW p
  let oy := openingYW p
  let oh := openingHeightP p
  let fw := p.flangeThickness
  let px := match side with | .left => RACK_HALF_WIDTH - fw | .right => 0
  (if 5 < oy then
    [.flange oy (flangeHoleYs oy) (p.gussetSize + 5) px 0 (-p.wallThickness) fw]
   else []) ++
  (if 5 < fh - oy - oh then
    [.flange (fh - oy - oh) (flangeHoleYs (fh - oy - oh)) (p.gussetSize + 5) px
      (oy + oh) (-p.wallThickness) fw]
   else [])

/-- Wide bracket: bottom and top corner gussets, with heights clamped by
min(gussetSize, available span), emitted only when the clamped height
exceeds 5. -/
def wideCornerGussets (p : Params) (side : Side) : List Feature :=
  let fh := faceplateHeightW p
  let oy := openingYW p
  let oh := openingHeightP p
  let fw := p.flangeThickness
  let bh := min p.gussetSize oy
  let th := min p.gussetSize (fh - oy - oh)
  let tn : Bool := match side with | .left => true | .right => false
  let gx := match side with | .left => RACK_HALF_WIDTH - fw | .right => fw
  (if 5 < bh then
    [.cornerGusset tn bh p.gussetSize fw gx (oy - bh) (-p.wallThickness)]
   else []) ++
  (if 5 < th then
    [.cornerGusset tn th p.gussetSize fw gx (oy + oh) (-p.wallThickness)]
   else [])

/-- Source: generateWideBracket — all features of one half bracket, in
emission order. -/
def generateWideBracket (p : Params) (side : Side) : List Feature :=
  widePlate p side ++ wideShelf p side ++ wideEar p side ++
    wideFlanges p side ++ wideCornerGussets p side

/-- Single mode: rackUnits = ceil(height / 35). -/
def rackUnitsS (p : Params) : ℤ := ⌈p.height / 35⌉

def faceplateHeightS (p : Params) : ℚ := (rackUnitsS p : ℚ) * RACK_UNIT_HEIGHT

def openingXS (p : Params) : ℚ := (RACK_HALF_WIDTH - openingWidthP p) / 2

def openingYS (p : Params) : ℚ := (faceplateHeightS p - openingHeightP p) / 2

/-- Source: the shelf gusset width actually used in single mode —
min(shelfGussetWidth, 5) when 180 < width <= 200, otherwise the
user-supplied value. -/
def usedShelfGussetWidth (p : Params) : ℚ :=
  if 180 < p.width ∧ p.width ≤ 200 then min p.shelfGussetWidth 5 else p.shelfGussetWidth

/-- Single mode: faceplate (blank plate or up to four pieces around the
centered opening). -/
def singlePlate (p : Params) : List Feature :=
  let fh := faceplateHeightS p
  let ft := p.wallThickness
  let ow := openingWidthP p
  let oh := openingHeightP p
  let ox := openingXS p
  let oy := openingYS p
  if p.isBlank then
    [.blankPlate RACK_HALF_WIDTH fh ft (RACK_HALF_WIDTH / 2) (fh / 2) (-(ft / 2))]
  else
    (if 0 < oy then
      [.facePiece .bottom RACK_HALF_WIDTH oy ft (RACK_HALF_WIDTH / 2) (oy / 2) (-(ft / 2))]
     else []) ++
    (if 0 < fh - oy - oh then
      [.facePiece .top RACK_HALF_WIDTH (fh - oy - oh) ft (RACK_HALF_WIDTH / 2)
        (oy + oh + (fh - oy - oh) / 2) (-(ft / 2))]
     else []) ++
    (if 0 < ox then
      [.facePiece .leftSide ox oh ft (ox / 2) (oy + oh / 2) (-(ft / 2))]
     else []) ++
    (if 0 < RACK_HALF_WIDTH - ox - ow then
      [.facePiece .rightSide (RACK_HALF_WIDTH - ox - ow) oh ft
        (ox + ow + (RACK_HALF_WIDTH - ox - ow) / 2) (oy + oh / 2) (-(ft / 2))]
     else [])

/-- Single mode: support shelf with its two triangular gussets (emitted
whenever addSupport is set and the panel is not blank; no further
conditions in the source). -/
def singleShelf (p : Params) : List Feature :=
  if p.addSupport = true ∧ p.isBlank = false then
    let sd := p.depth + 10
    let g := usedShelfGussetWidth p
    let ow := openingWidthP p
    [.shelf (ow + g * 2) p.shelfThickness sd (openingXS p + ow / 2)
      (openingYS p - p.shelfThickness / 2) (-p.wallThickness - sd / 2),
     .shelfGusset sd p.height g (openingXS p - g) (openingYS p) (-p.wallThickness),
     .shelfGusset sd p.height g (openingXS p + ow) (openingYS p) (-p.wallThickness)]
  else []

/-- Single mode: the rack ear on the user-chosen side. -/
def singleEar (p : Params) : List Feature :=
  let fh := faceplateHeightS p
  let ft := p.wallThickness
  if p.addRackHoles then
    [.earHoles p.earSide
      (match p.earSide with | .left => -EAR_WIDTH | .right => RACK_HALF_WIDTH)
      (match p.earSide with | .left => 0 | .right => RACK_HALF_WIDTH + EAR_WIDTH)
      (match p.earSide with | .left => -(EAR_WIDTH / 2) | .right => RACK_HALF_WIDTH + EAR_WIDTH / 2)
      fh ft (rackHolePositions (rackUnitsS p))]
  else
    [.earBox p.earSide EAR_WIDTH fh ft
      (match p.earSide with | .left => -(EAR_WIDTH / 2) | .right => RACK_HALF_WIDTH + EAR_WIDTH / 2)
      (fh / 2) (-(ft / 2))]

/-- Single mode: the full-height joining flange on the inner edge
(emitted unconditionally in the source). -/
def singleFlange (p : Params) : List Feature :=
  let fh := faceplateHeightS p
  let fw := p.flangeThickness
  [.flange fh (joiningHoleYs fh) (p.gussetSize + 5)
    (match p.earSide with | .left => RACK_HALF_WIDTH - fw | .right => 0)
    0 (-p.wallThickness) fw]

/-- Single mode: the two flange gussets, height gussetSize, at y = 10 and
y = faceplateHeight - gussetSize (emitted unconditionally, no clamping in
the source). -/
def singleGussets (p : Params) : List Feature :=
  let fh := faceplateHeightS p
  let fw := p.flangeThickness
  let tn : Bool := match p.earSide with | .left => true | .right => false
  let gx := match p.earSide with | .left => RACK_HALF_WIDTH - fw | .right => 0
  [.cornerGusset tn p.gussetSize p.gussetSize fw gx 10 (-p.wallThickness),
   .cornerGusset tn p.gussetSize p.gussetSize fw gx (fh - p.gussetSize) (-p.wallThickness)]

/-- Source: standard single-bracket branch of generateMountGeometry, in
emission order. -/
def generateSingleMount (p : Params) : List Feature :=
  singlePlate p ++ singleShelf p ++ singleEar p ++ singleFlange p ++ singleGussets p

/-- The produced geometry: one feature list, or one per half in wide mode. -/
inductive MountGeometry
  | single (features : List Feature)
  | wide (leftHalf rightHalf : List Feature)
deriving DecidableEq, Repr

/-- Source: generateMountGeometry — wide mode generates both half
brackets, otherwise the single bracket. -/
def generateMountGeometry (p : Params) : MountGeometry :=
  if isWideDeviceMode p.width p.tolerance then
    .wide (generateWideBracket p .left) (generateWideBracket p .right)
  else
    .single (generateSingleMount p)

/-- Source: updatePreview removes the previous mesh and regenerates from
the current parameters; the stored scene mesh is the only cross-request
state and is overwritten wholesale. -/
def updateScene (p : Params) (_prev : Option MountGeometry) : Option MountGeometry :=
  some (generateMountGeometry p)

/-- Ear sides present in a feature list. -/
def earSidesOf (l : List Feature) : List Side :=
  l.filterMap fun f =>
    match f with
    | .earBox s _ _ _ _ _ _ => some s
    | .earHoles s _ _ _ _ _ _ => some s
    | _ => none

/-- Faceplate pieces present in a feature list (by position tag). -/
def facePiecesOf (l : List Feature) : List FacePos :=
  l.filterMap fun f =>
    match f with
    | .facePiece pos _ _ _ _ _ _ => some pos
    | _ => none

/-- (height, hole Y list) of each joining flange in a feature list. -/
def flangeDataOf (l : List Feature) : List (ℚ × List ℚ) :=
  l.filterMap fun f =>
    match f with
    | .flange fh ys _ _ _ _ _ => some (fh, ys)
    | _ => none

/-- Heights of the corner (flange) gussets in a feature list. -/
def cornerGussetHeights (l : List Feature) : List ℚ :=
  l.filterMap fun f =>
    match f with
    | .cornerGusset _ h _ _ _ _ _ => some h
    | _ => none

/-- Extrude widths of the shelf gussets in a feature list. -/
def shelfGussetWidths (l : List Feature) : List ℚ :=
  l.filterMap fun f =>
    match f with
    | .shelfGusset _ _ w _ _ _ => some w
    | _ => none

/-- X-sizes of the shelf boxes in a feature list. -/
def shelfWidthsOf (l : List Feature) : List ℚ :=
  l.filterMap fun f =>
    match f with
    | .shelf sx _ _ _ _ _ => some sx
    | _ => none

/-- Faceplate heights recorded on the ear features of a feature list. -/
def earHeightsOf (l : List Feature) : List ℚ :=
  l.filterMap fun f =>
    match f with
    | .earBox _ _ sy _ _ _ _ => some sy
    | .earHoles _ _ _ _ fh _ _ => some fh
    | _ => none

/-- Hole Y lists of the ear features of a feature list. -/
def earHoleYsOf (l : List Feature) : List (List ℚ) :=
  l.filterMap fun f =>
    match f with
    | .earHoles _ _ _ _ _ _ ys => some ys
    | _ => none

/-- Number of blank (solid) plates in a feature list. -/
def blankPlateCount (l : List Feature) : ℕ :=
  (l.filterMap fun f =>
    match f with
    | .blankPlate _ _ _ _ _ _ => some ()
    | _ => none).length

/-- Number of shelf boxes and shelf gussets in a feature list. -/
def shelfFeatureCount (l : List Feature) : ℕ :=
  (l.filterMap fun f =>
    match f with
    | .shelf _ _ _ _ _ _ => some ()
    | .shelfGusset _ _ _ _ _ _ => some ()
    | _ => none).length

/-- Mirror image of a side. -/
def flipSide : Side → Side
  | .left => .right
  | .right => .left

/-- Mirror image of a face-piece position. -/
def mirrorFacePos : FacePos → FacePos
  | .bottom => .bottom
  | .top => .top
  | .leftSide => .rightSide
  | .rightSide => .leftSide

/-- Reflection of a local x coordinate across the shared rack centerline
(left-half local coordinates map to right-half local coordinates by
x ↦ 225 - x). -/
def mirrorX (x : ℚ) : ℚ := RACK_HALF_WIDTH - x

/-- Mirror image of a feature across the shared rack centerline.  Boxes
reflect their center; prisms extruded along x reflect their x span;
side- and direction-tags flip. -/
def mirrorF : Feature → Feature
  | .blankPlate sx sy sz cx cy cz => .blankPlate sx sy sz (mirrorX cx) cy cz
  | .facePiece pos sx sy sz cx cy cz =>
      .facePiece (mirrorFacePos pos) sx sy sz (mirrorX cx) cy cz
  | .shelf sx sy sz cx cy cz => .shelf sx sy sz (mirrorX cx) cy cz
  | .shelfGusset sd lh w px py pz =>
      .shelfGusset sd lh w (RACK_HALF_WIDTH - px - w) py pz
  | .earBox s sx sy sz cx cy cz => .earBox (flipSide s) sx sy sz (mirrorX cx) cy cz
  | .earHoles s xs xe hx fh t ys =>
      .earHoles (flipSide s) (RACK_HALF_WIDTH - xe) (RACK_HALF_WIDTH - xs) (mirrorX hx) fh t ys
  | .flange fh ys fho px py pz w => .flange fh ys fho (RACK_HALF_WIDTH - px - w) py pz w
  | .cornerGusset tn h d w px py pz => .cornerGusset (!tn) h d w (mirrorX px) py pz

/-- A list of rationals is evenly spaced: all consecutive gaps equal. -/
def evenlySpaced (l : List ℚ) : Prop :=
  ∃ d : ℚ, l.Chain' fun a b => b - a = d

/-- Default-like parameter set of the source form (width 100, height 44,
depth 200, tolerance 2, wall 10). -/
def pDefault : Params := ⟨100, 44, 200, 2, 10, 5, 3, 15, 10, true, true, false, .left⟩

/-- Single-mode parameters with an oversized gusset request. -/
def pBigGusset : Params := ⟨100, 44, 200, 2, 10, 5, 3, 1000, 10, true, true, false, .left⟩

/-- Blank-panel parameters (single mode). -/
def pBlank : Params := ⟨100, 44, 200, 2, 10, 5, 3, 15, 10, true, true, true, .left⟩

/-- Wide-mode parameters whose joining flanges are emitted with height
5.725, between the emission threshold 5 and the hole threshold 6. -/
def pShortFlange : Params := ⟨210, 25, 200, 4, 10, 5, 3, 15, 10, true, true, false, .left⟩

/-- Wide-mode parameters (opening width 214). -/
def pWide : Params := ⟨210, 44, 200, 2, 10, 5, 3, 15, 10, true, true, false, .left⟩

/-- Single-mode parameters with width in the override band (180, 200]. -/
def pOverride : Params := ⟨190, 44, 200, 2, 10, 5, 3, 15, 10, true, true, false, .left⟩

end RackMount

namespace RackMount

lemma earSidesOf_append (a b : List Feature) :
    earSidesOf (a ++ b) = earSidesOf a ++ earSidesOf b := by
  simp [earSidesOf]

lemma earSidesOf_wideEar (p : Params) (side : Side) :
    earSidesOf (wideEar p side) = [side] := by
  unfold wideEar earSidesOf
  split <;> simp

lemma earSidesOf_widePlate (p : Params) (side : Side) :
    earSidesOf (widePlate p side) = [] := by
  unfold widePlate earSidesOf
  split <;> (try split) <;> (try split) <;> (try split) <;> (try split) <;> simp <;> aesop

lemma earSidesOf_wideShelf (p : Params) (side : Side) :
    earSidesOf (wideShelf p side) = [] := by
  unfold wideShelf earSidesOf
  split <;> (try split) <;> (try split) <;> simp <;> aesop

lemma earSidesOf_wideFlanges (p : Params) (side : Side) :
    earSidesOf (wideFlanges p side) = [] := by
  unfold wideFlanges earSidesOf
  split <;> (try split) <;> simp <;> aesop

lemma earSidesOf_wideCornerGussets (p : Params) (side : Side) :
    earSidesOf (wideCornerGussets p side) = [] := by
  unfold wideCornerGussets earSidesOf
  split <;> (try split) <;> simp <;> aesop

lemma earSidesOf_wide (p : Params) (side : Side) :
    earSidesOf (generateWideBracket p side) = [side] := by
  unfold generateWideBracket
  rw [earSidesOf_append, earSidesOf_append, earSidesOf_append, earSidesOf_append,
    earSidesOf_widePlate, earSidesOf_wideShelf, earSidesOf_wideEar,
    earSidesOf_wideFlanges, earSidesOf_wideCornerGussets]
  simp

/-- C1: mode selection is a function of openingWidth = width + 2*tolerance
with an exclusive boundary at 200: openingWidth exactly 200 selects single
mode, any openingWidth strictly above 200 selects wide mode and produces
the two half brackets, the left half carrying exactly one (left) rack ear
and the right half exactly one (right) rack ear. -/
theorem c1_mode_threshold (p : Params) :
    (openingWidthP p = 200 →
      generateMountGeometry p = .single (generateSingleMount p)) ∧
    (200 < openingWidthP p →
      generateMountGeometry p =
        .wide (generateWideBracket p .left) (generateWideBracket p .right) ∧
      earSidesOf (generateWideBracket p .left) = [Side.left] ∧
      earSidesOf (generateWideBracket p .right) = [Side.right]) := by
  constructor
  · intro h
    unfold generateMountGeometry isWideDeviceMode
    rw [if_neg]
    simp only [decide_eq_true_eq, not_lt]
    unfold openingWidthP at h
    linarith
  · intro h
    refine ⟨?_, earSidesOf_wide p .left, earSidesOf_wide p .right⟩
    unfold generateMountGeometry isWideDeviceMode
    rw [if_pos]
    simp only [decide_eq_true_eq]
    unfold openingWidthP at h
    exact h

lemma earHeightsOf_single (p : Params) :
    earHeightsOf (generateSingleMount p) = [faceplateHeightS p] := by
  simp [generateSingleMount, singlePlate, singleShelf, singleEar, singleFlange,
    singleGussets, earHeightsOf, List.filterMap_append, List.filterMap_cons,
    apply_ite (List.filterMap _), ite_self]

lemma earHeightsOf_wide (p : Params) (side : Side) :
    earHeightsOf (generateWideBracket p side) = [faceplateHeightW p] := by
  simp [generateWideBracket, widePlate, wideShelf, wideEar, wideFlanges,
    wideCornerGussets, earHeightsOf, List.filterMap_append, List.filterMap_cons,
    apply_ite (List.filterMap _), ite_self]

lemma earHoleYsOf_single (p : Params) (h : p.addRackHoles = true) :
    earHoleYsOf (generateSingleMount p) = [rackHolePositions (rackUnitsS p)] := by
  simp [generateSingleMount, singlePlate, singleShelf, singleEar, singleFlange,
    singleGussets, h, earHoleYsOf, List.filterMap_append, List.filterMap_cons,
    apply_ite (List.filterMap _), ite_self]

lemma earHoleYsOf_wide (p : Params) (side : Side) (h : p.addRackHoles = true) :
    earHoleYsOf (generateWideBracket p side) = [rackHolePositions (rackUnitsW p)] := by
  simp [generateWideBracket, widePlate, wideShelf, wideEar, wideFlanges,
    wideCornerGussets, h, earHoleYsOf, List.filterMap_append, List.filterMap_cons,
    apply_ite (List.filterMap _), ite_self]

lemma earSidesOf_single (p : Params) :
    earSidesOf (generateSingleMount p) = [p.earSide] := by
  simp [generateSingleMount, singlePlate, singleShelf, singleEar, singleFlange,
    singleGussets, earSidesOf, List.filterMap_append, List.filterMap_cons,
    apply_ite (List.filterMap _), ite_self]

lemma flangeDataOf_single (p : Params) :
    flangeDataOf (generateSingleMount p) =
      [(faceplateHeightS p, joiningHoleYs (faceplateHeightS p))] := by
  simp [generateSingleMount, singlePlate, singleShelf, singleEar, singleFlange,
    singleGussets, flangeDataOf, List.filterMap_append, List.filterMap_cons,
    apply_ite (List.filterMap _), ite_self]

lemma flangeDataOf_wide (p : Params) (side : Side) :
    flangeDataOf (generateWideBracket p side) =
      (if 5 < openingYW p then [(openingYW p, flangeHoleYs (openingYW p))] else []) ++
      (if 5 < faceplateHeightW p - openingYW p - openingHeightP p then
        [(faceplateHeightW p - openingYW p - openingHeightP p,
          flangeHoleYs (faceplateHeightW p - openingYW p - openingHeightP p))]
       else []) := by
  simp [generateWideBracket, widePlate, wideShelf, wideEar, wideFlanges,
    wideCornerGussets, flangeDataOf, List.filterMap_append, List.filterMap_cons,
    apply_ite (List.filterMap _), ite_self]

lemma cornerGussetHeights_single (p : Params) :
    cornerGussetHeights (generateSingleMount p) = [p.gussetSize, p.gussetSize] := by
  simp [generateSingleMount, singlePlate, singleShelf, singleEar, singleFlange,
    singleGussets, cornerGussetHeights, List.filterMap_append, List.filterMap_cons,
    apply_ite (List.filterMap _), ite_self]

lemma cornerGussetHeights_wide (p : Params) (side : Side) :
    cornerGussetHeights (generateWideBracket p side) =
      (if 5 < min p.gussetSize (openingYW p) then [min p.gussetSize (openingYW p)] else []) ++
      (if 5 < min p.gussetSize (faceplateHeightW p - openingYW p - openingHeightP p) then
        [min p.gussetSize (faceplateHeightW p - openingYW p - openingHeightP p)]
       else []) := by
  simp [generateWideBracket, widePlate, wideShelf, wideEar, wideFlanges,
    wideCornerGussets, cornerGussetHeights, List.filterMap_append, List.filterMap_cons,
    apply_ite (List.filterMap _), ite_self]

lemma facePiecesOf_single (p : Params) (hb : p.isBlank = false) :
    facePiecesOf (generateSingleMount p) =
      (if 0 < openingYS p then [FacePos.bottom] else []) ++
      (if 0 < faceplateHeightS p - openingYS p - openingHeightP p then [FacePos.top] else []) ++
      (if 0 < openingXS p then [FacePos.leftSide] else []) ++
      (if 0 < RACK_HALF_WIDTH - openingXS p - openingWidthP p then [FacePos.rightSide]
       else []) := by
  simp [generateSingleMount, singlePlate, singleShelf, singleEar, singleFlange,
    singleGussets, hb, facePiecesOf, List.filterMap_append, List.filterMap_cons,
    apply_ite (List.filterMap _), ite_self]

lemma facePiecesOf_wide (p : Params) (side : Side) (hb : p.isBlank = false) :
    facePiecesOf (generateWideBracket p side) =
      (if 0 < openingYW p then [FacePos.bottom] else []) ++
      (if 0 < faceplateHeightW p - openingYW p - openingHeightP p then [FacePos.top] else []) ++
      (if 0 < localOpeningStart p side then [FacePos.leftSide] else []) ++
      (if 0 < RACK_HALF_WIDTH - localOpeningEnd p side then [FacePos.rightSide]
       else []) := by
  simp [generateWideBracket, widePlate, wideShelf, wideEar, wideFlanges,
    wideCornerGussets, hb, facePiecesOf, List.filterMap_append, List.filterMap_cons,
    apply_ite (List.filterMap _), ite_self]

lemma facePiecesOf_single_blank (p : Params) (hb : p.isBlank = true) :
    facePiecesOf (generateSingleMount p) = [] := by
  simp [generateSingleMount, singlePlate, singleShelf, singleEar, singleFlange,
    singleGussets, hb, facePiecesOf, List.filterMap_append, List.filterMap_cons,
    apply_ite (List.filterMap _), ite_self]

lemma facePiecesOf_wide_blank (p : Params) (side : Side) (hb : p.isBlank = true) :
    facePiecesOf (generateWideBracket p side) = [] := by
  simp [generateWideBracket, widePlate, wideShelf, wideEar, wideFlanges,
    wideCornerGussets, hb, facePiecesOf, List.filterMap_append, List.filterMap_cons,
    apply_ite (List.filterMap _), ite_self]

lemma shelfFeatureCount_single_blank (p : Params) (hb : p.isBlank = true) :
    shelfFeatureCount (generateSingleMount p) = 0 := by
  simp [generateSingleMount, singlePlate, singleShelf, singleEar, singleFlange,
    singleGussets, hb, shelfFeatureCount, List.filterMap_append, List.filterMap_cons,
    apply_ite (List.filterMap _), ite_self]

lemma shelfFeatureCount_wide_blank (p : Params) (side : Side) (hb : p.isBlank = true) :
    shelfFeatureCount (generateWideBracket p side) = 0 := by
  simp [generateWideBracket, widePlate, wideShelf, wideEar, wideFlanges,
    wideCornerGussets, hb, shelfFeatureCount, List.filterMap_append, List.filterMap_cons,
    apply_ite (List.filterMap _), ite_self]

lemma blankPlateCount_single_blank (p : Params) (hb : p.isBlank = true) :
    blankPlateCount (generateSingleMount p) = 1 := by
  simp [generateSingleMount, singlePlate, singleShelf, singleEar, singleFlange,
    singleGussets, hb, blankPlateCount, List.filterMap_append, List.filterMap_cons,
    apply_ite (List.filterMap _), ite_self]

lemma blankPlateCount_wide_blank (p : Params) (side : Side) (hb : p.isBlank = true) :
    blankPlateCount (generateWideBracket p side) = 1 := by
  simp [generateWideBracket, widePlate, wideShelf, wideEar, wideFlanges,
    wideCornerGussets, hb, blankPlateCount, List.filterMap_append, List.filterMap_cons,
    apply_ite (List.filterMap _), ite_self]

lemma shelfGussetWidths_single (p : Params) (hs : p.addSupport = true)
    (hb : p.isBlank = false) :
    shelfGussetWidths (generateSingleMount p) =
      [usedShelfGussetWidth p, usedShelfGussetWidth p] := by
  simp [generateSingleMount, singlePlate, singleShelf, singleEar, singleFlange,
    singleGussets, hs, hb, shelfGussetWidths, List.filterMap_append, List.filterMap_cons,
    apply_ite (List.filterMap _), ite_self]

lemma shelfWidthsOf_single (p : Params) (hs : p.addSupport = true)
    (hb : p.isBlank = false) :
    shelfWidthsOf (generateSingleMount p) =
      [openingWidthP p + usedShelfGussetWidth p * 2] := by
  simp [generateSingleMount, singlePlate, singleShelf, singleEar, singleFlange,
    singleGussets, hs, hb, shelfWidthsOf, List.filterMap_append, List.filterMap_cons,
    apply_ite (List.filterMap _), ite_self]

/-- Witness for C1 at openingWidth 200 (width 196, tolerance 2) and at
openingWidth 214 (width 210, tolerance 2). -/
theorem c1_mode_threshold_witness :
    generateMountGeometry ⟨196, 44, 200, 2, 10, 5, 3, 15, 10, true, true, false, .left⟩ =
      .single (generateSingleMount ⟨196, 44, 200, 2, 10, 5, 3, 15, 10, true, true, false, .left⟩) ∧
    (generateMountGeometry pWide =
      .wide (generateWideBracket pWide .left) (generateWideBracket pWide .right) ∧
     earSidesOf (generateWideBracket pWide .left) = [Side.left] ∧
     earSidesOf (generateWideBracket pWide .right) = [Side.right]) :=
  ⟨(c1_mode_threshold _).1 (by norm_num [openingWidthP]),
   (c1_mode_threshold pWide).2 (by norm_num [openingWidthP, pWide])⟩

end RackMount

namespace RackMount

/-- C7: generation is deterministic and idempotent — the produced geometry
is a function of the declared input parameters alone; a scene update
ignores whatever mesh was stored before, two updates with the same
parameters store identical geometry, and equal parameter assignments give
bit-for-bit equal feature lists. -/
theorem c7_determinism :
    (∀ (p : Params) (s t : Option MountGeometry), updateScene p s = updateScene p t) ∧
    (∀ (p : Params) (s : Option MountGeometry),
      updateScene p (updateScene p s) = updateScene p s) ∧
    (∀ p q : Params, p = q → generateMountGeometry p = generateMountGeometry q) :=
  ⟨fun _ _ _ => rfl, fun _ _ => rfl, fun _ _ h => by rw [h]⟩

/-- Witness for C7 at the default parameters. -/
theorem c7_determinism_witness :
    updateScene pDefault none = updateScene pDefault (some (.single [])) ∧
    generateMountGeometry pDefault = generateMountGeometry pDefault :=
  ⟨c7_determinism.1 pDefault none (some (.single [])),
   c7_determinism.2.2 pDefault pDefault rfl⟩

/-- C5: the ear (and with it the faceplate) height is
ceil(height/35) * 44.45 in single mode and ceil(height/25) * 44.45 in
wide mode, and at width=100, height=44, depth=200, tolerance=2,
wallThickness=10 the generator picks single mode with faceplate height
88.9 and a 104 x 48 opening centered at openingX = (225-104)/2 = 60.5,
openingY = (88.9-48)/2 = 20.45 (the four emitted pieces leave margins of
60.5 on both sides and 20.45 above and below). -/
theorem c5_rack_units :
    (∀ p : Params,
      earHeightsOf (generateSingleMount p) = [(⌈p.height / 35⌉ : ℚ) * 44.45] ∧
      ∀ side, earHeightsOf (generateWideBracket p side) = [(⌈p.height / 25⌉ : ℚ) * 44.45]) ∧
    isWideDeviceMode 100 2 = false ∧
    generateMountGeometry pDefault = .single (generateSingleMount pDefault) ∧
    faceplateHeightS pDefault = (⌈(44 : ℚ) / 35⌉ : ℚ) * 44.45 ∧
    faceplateHeightS pDefault = 88.9 ∧
    openingWidthP pDefault = 104 ∧ openingHeightP pDefault = 48 ∧
    openingXS pDefault = (225 - 104) / 2 ∧ openingYS pDefault = (88.9 - 48) / 2 ∧
    Feature.facePiece .bottom 225 20.45 10 112.5 10.225 (-5) ∈ generateSingleMount pDefault ∧
    Feature.facePiece .top 225 20.45 10 112.5 78.675 (-5) ∈ generateSingleMount pDefault ∧
    Feature.facePiece .leftSide 60.5 48 10 30.25 44.45 (-5) ∈ generateSingleMount pDefault ∧
    Feature.facePiece .rightSide 60.5 48 10 194.75 44.45 (-5) ∈ generateSingleMount pDefault := by
  have hru : rackUnitsS pDefault = 2 := by
    show (⌈(44 : ℚ) / 35⌉ : ℤ) = 2
    rw [Int.ceil_eq_iff] <;> norm_num
  have hfh : faceplateHeightS pDefault = 88.9 := by
    rw [faceplateHeightS, hru]; norm_num [RACK_UNIT_HEIGHT]
  have hox : openingXS pDefault = 60.5 := by
    rw [openingXS]; norm_num [openingWidthP, pDefault, RACK_HALF_WIDTH]
  have hoy : openingYS pDefault = 20.45 := by
    rw [openingYS, hfh]; norm_num [openingHeightP, pDefault]
  have hB : pDefault.isBlank = false := rfl
  have hW : pDefault.wallThickness = 10 := rfl
  have howp : openingWidthP pDefault = 104 := by norm_num [openingWidthP, pDefault]
  have hohp : openingHeightP pDefault = 48 := by norm_num [openingHeightP, pDefault]
  have hplate : singlePlate pDefault =
      [.facePiece .bottom 225 20.45 10 112.5 10.225 (-5),
       .facePiece .top 225 20.45 10 112.5 78.675 (-5),
       .facePiece .leftSide 60.5 48 10 30.25 44.45 (-5),
       .facePiece .rightSide 60.5 48 10 194.75 44.45 (-5)] := by
    rw [singlePlate]
    rw [hB, hW, hfh, hox, hoy, howp, hohp]
    norm_num [RACK_HALF_WIDTH]
  have hmem : ∀ f ∈ singlePlate pDefault, f ∈ generateSingleMount pDefault := by
    intro f hf
    unfold generateSingleMount
    exact List.mem_append_left _ (List.mem_append_left _
      (List.mem_append_left _ (List.mem_append_left _ hf)))
  refine ⟨?_, ?_, ?_, ?_, ?_, ?_, ?_, ?_, ?_, ?_, ?_, ?_, ?_⟩
  · intro p
    constructor
    · rw [earHeightsOf_single, faceplateHeightS, rackUnitsS]
      norm_num [RACK_UNIT_HEIGHT]
    · intro side
      rw [earHeightsOf_wide, faceplateHeightW, rackUnitsW]
      norm_num [RACK_UNIT_HEIGHT]
  · simp [isWideDeviceMode]; norm_num
  · rw [generateMountGeometry, if_neg]
    simp [isWideDeviceMode, pDefault]; norm_num
  · rw [hfh, show (⌈(44 : ℚ) / 35⌉ : ℤ) = 2 from hru]; norm_num
  · exact hfh
  · exact howp
  · exact hohp
  · rw [hox]; norm_num
  · rw [hoy]; norm_num
  · exact hmem _ (by rw [hplate]; simp)
  · exact hmem _ (by rw [hplate]; simp)
  · exact hmem _ (by rw [hplate]; simp)
  · exact hmem _ (by rw [hplate]; simp)

end RackMount

namespace RackMount

/-- C2 counterexample: the claim also asserts clamping/omission in single
mode, but at width=100, height=44, tolerance=2, wallThickness=10 with
gussetSize=1000 the generator is in single mode and emits both flange
gussets with height 1000 — far beyond the 20.45 span between the opening
edge and the faceplate edge (and beyond the 88.9 faceplate height):
neither clamped nor omitted. -/
theorem c2_single_gusset_unclamped_cex :
    isWideDeviceMode pBigGusset.width pBigGusset.tolerance = false ∧
    cornerGussetHeights (generateSingleMount pBigGusset) = [1000, 1000] ∧
    openingYS pBigGusset = 20.45 ∧ faceplateHeightS pBigGusset = 88.9 ∧
    ¬((1000 : ℚ) ≤ openingYS pBigGusset) := by
  have hru : rackUnitsS pBigGusset = 2 := by
    show (⌈(44 : ℚ) / 35⌉ : ℤ) = 2
    rw [Int.ceil_eq_iff] <;> norm_num
  have hfh : faceplateHeightS pBigGusset = 88.9 := by
    rw [faceplateHeightS, hru]; norm_num [RACK_UNIT_HEIGHT]
  have hoy : openingYS pBigGusset = 20.45 := by
    rw [openingYS, hfh]; norm_num [openingHeightP, pBigGusset]
  refine ⟨?_, ?_, hoy, hfh, ?_⟩
  · simp [isWideDeviceMode, pBigGusset]; norm_num
  · rw [cornerGussetHeights_single]; rfl
  · rw [hoy]; norm_num

/-- C2 (amended): the clamping/omission behaviour holds for the wide-mode
corner gussets of both halves — each gusset height is
min(gussetSize, available span), never exceeding the span between the
opening edge and the faceplate edge, and the gusset is emitted iff that
clamped height exceeds 5 — while in single mode the two flange gussets
are always emitted with height exactly gussetSize, unclamped. -/
theorem c2_gusset_clamping (p : Params) :
    (∀ side, cornerGussetHeights (generateWideBracket p side) =
      (if 5 < min p.gussetSize (openingYW p) then [min p.gussetSize (openingYW p)]
       else []) ++
      (if 5 < min p.gussetSize (faceplateHeightW p - openingYW p - openingHeightP p) then
        [min p.gussetSize (faceplateHeightW p - openingYW p - openingHeightP p)]
       else [])) ∧
    cornerGussetHeights (generateSingleMount p) = [p.gussetSize, p.gussetSize] :=
  ⟨fun side => cornerGussetHeights_wide p side, cornerGussetHeights_single p⟩

/-- C3 counterexample: with blank-panel-mode on (and single mode), the
produced mesh still contains the joining flange and both flange gussets,
contradicting the claim that no joining-flange or flange-gusset features
are produced. -/
theorem c3_blank_still_has_flange_cex :
    pBlank.isBlank = true ∧
    isWideDeviceMode pBlank.width pBlank.tolerance = false ∧
    flangeDataOf (generateSingleMount pBlank) =
      [(faceplateHeightS pBlank, joiningHoleYs (faceplateHeightS pBlank))] ∧
    cornerGussetHeights (generateSingleMount pBlank) = [15, 15] := by
  refine ⟨rfl, ?_, flangeDataOf_single pBlank, ?_⟩
  · simp [isWideDeviceMode, pBlank]; norm_num
  · rw [cornerGussetHeights_single]; rfl

/-- C3 (amended): with blank-panel-mode on the faceplate is one solid
plate, there are no opening pieces and no shelf features, and exactly one
rack ear (on the chosen side in single mode, on the bracket side in wide
mode) regardless of the other flags — but the joining flange and the
flange gussets are still emitted (always in single mode; in wide mode
subject to their usual span conditions). -/
theorem c3_blank_panel (p : Params) (hb : p.isBlank = true) :
    facePiecesOf (generateSingleMount p) = [] ∧
    shelfFeatureCount (generateSingleMount p) = 0 ∧
    blankPlateCount (generateSingleMount p) = 1 ∧
    earSidesOf (generateSingleMount p) = [p.earSide] ∧
    flangeDataOf (generateSingleMount p) =
      [(faceplateHeightS p, joiningHoleYs (faceplateHeightS p))] ∧
    cornerGussetHeights (generateSingleMount p) = [p.gussetSize, p.gussetSize] ∧
    ∀ side, facePiecesOf (generateWideBracket p side) = [] ∧
      shelfFeatureCount (generateWideBracket p side) = 0 ∧
      blankPlateCount (generateWideBracket p side) = 1 ∧
      earSidesOf (generateWideBracket p side) = [side] :=
  ⟨facePiecesOf_single_blank p hb, shelfFeatureCount_single_blank p hb,
   blankPlateCount_single_blank p hb, earSidesOf_single p, flangeDataOf_single p,
   cornerGussetHeights_single p,
   fun side => ⟨facePiecesOf_wide_blank p side hb, shelfFeatureCount_wide_blank p side hb,
     blankPlateCount_wide_blank p side hb, earSidesOf_wide p side⟩⟩

/-- Witness for C3 (amended) at the blank default parameters. -/
theorem c3_blank_panel_witness :
    facePiecesOf (generateSingleMount pBlank) = [] ∧
    blankPlateCount (generateSingleMount pBlank) = 1 ∧
    shelfFeatureCount (generateSingleMount pBlank) = 0 :=
  ⟨(c3_blank_panel pBlank rfl).1, (c3_blank_panel pBlank rfl).2.2.1,
   (c3_blank_panel pBlank rfl).2.1⟩

/-- C10: in single mode with the shelf enabled, the gusset width used for
the shelf and both shelf gussets is usedShelfGussetWidth, which equals
min(shelfGussetWidth, 5) when 180 < width <= 200 and the user value when
width <= 180. -/
theorem c10_shelf_gusset_override (p : Params) :
    (p.addSupport = true → p.isBlank = false →
      shelfGussetWidths (generateSingleMount p) =
        [usedShelfGussetWidth p, usedShelfGussetWidth p] ∧
      shelfWidthsOf (generateSingleMount p) =
        [openingWidthP p + usedShelfGussetWidth p * 2]) ∧
    (180 < p.width → p.width ≤ 200 → usedShelfGussetWidth p = min p.shelfGussetWidth 5) ∧
    (p.width ≤ 180 → usedShelfGussetWidth p = p.shelfGussetWidth) := by
  refine ⟨fun hs hb => ⟨shelfGussetWidths_single p hs hb, shelfWidthsOf_single p hs hb⟩,
    fun h1 h2 => ?_, fun h1 => ?_⟩
  · rw [usedShelfGussetWidth, if_pos ⟨h1, h2⟩]
  · rw [usedShelfGussetWidth, if_neg]
    exact fun hc => absurd hc.1 (not_lt.mpr h1)

/-- Witness for C10 at width 190 with shelfGussetWidth 10: the used width
is clamped to 5 on the shelf and both gussets. -/
theorem c10_shelf_gusset_override_witness :
    shelfGussetWidths (generateSingleMount pOverride) = [5, 5] ∧
    usedShelfGussetWidth pOverride = min pOverride.shelfGussetWidth 5 := by
  have h := (c10_shelf_gusset_override pOverride).1 rfl rfl
  have h2 := (c10_shelf_gusset_override pOverride).2.1 (by norm_num [pOverride])
    (by norm_num [pOverride])
  refine ⟨?_, h2⟩
  rw [h.1, h2]
  norm_num [pOverride]

lemma rackHole_aux_length (m : ℕ) :
    ((List.range m).flatMap fun u : ℕ =>
      [(u : ℚ) * RACK_UNIT_HEIGHT + 6.35, (u : ℚ) * RACK_UNIT_HEIGHT + 22.225,
       (u : ℚ) * RACK_UNIT_HEIGHT + 38.1]).length = 3 * m := by
  induction m with
  | zero => simp
  | succ k ih =>
    rw [List.range_succ, List.flatMap_append]
    simp only [List.length_append, ih]
    simp
    omega

lemma rackHolePositions_length (n : ℤ) :
    (rackHolePositions n).length = 3 * n.toNat :=
  rackHole_aux_length n.toNat

lemma rackHolePositions_mem (n : ℤ) (y : ℚ) :
    y ∈ rackHolePositions n ↔
      ∃ u : ℕ, u < n.toNat ∧ (y = (u : ℚ) * RACK_UNIT_HEIGHT + 6.35 ∨
        y = (u : ℚ) * RACK_UNIT_HEIGHT + 22.225 ∨
        y = (u : ℚ) * RACK_UNIT_HEIGHT + 38.1) := by
  rw [rackHolePositions]
  simp [List.mem_flatMap, List.mem_range]

/-- C8: with rack holes enabled the ear carries the list
rackHolePositions (one identical computation in single and wide mode),
which has exactly 3n entries for n rack units, namely
u*44.45 + 6.35, u*44.45 + 22.225 and u*44.45 + 38.1 for each unit u,
three offsets in arithmetic progression with gap 15.875 inside the
44.45 unit height. -/
theorem c8_rack_hole_positions :
    (∀ p : Params, p.addRackHoles = true →
      earHoleYsOf (generateSingleMount p) = [rackHolePositions (rackUnitsS p)] ∧
      ∀ side, earHoleYsOf (generateWideBracket p side) =
        [rackHolePositions (rackUnitsW p)]) ∧
    (∀ n : ℤ, (rackHolePositions n).length = 3 * n.toNat) ∧
    (∀ (n : ℤ) (y : ℚ), y ∈ rackHolePositions n ↔ ∃ u : ℕ, u < n.toNat ∧
      (y = (u : ℚ) * 44.45 + 6.35 ∨ y = (u : ℚ) * 44.45 + 22.225 ∨
       y = (u : ℚ) * 44.45 + 38.1)) ∧
    (22.225 - 6.35 = (15.875 : ℚ) ∧ 38.1 - 22.225 = (15.875 : ℚ) ∧
      RACK_UNIT_HEIGHT = 44.45) := by
  refine ⟨fun p h => ⟨earHoleYsOf_single p h, fun side => earHoleYsOf_wide p side h⟩,
    rackHolePositions_length, fun n y => ?_, by norm_num, by norm_num, by norm_num [RACK_UNIT_HEIGHT]⟩
  have h := rackHolePositions_mem n y
  simpa [RACK_UNIT_HEIGHT] using h

/-- Witness for C8 at the default parameters (rack holes enabled). -/
theorem c8_rack_hole_positions_witness :
    earHoleYsOf (generateSingleMount pDefault) = [rackHolePositions (rackUnitsS pDefault)] :=
  (c8_rack_hole_positions.1 pDefault rfl).1

end RackMount

namespace RackMount

/-- C4 counterexample: at width=210, height=25, tolerance=4 (wide mode)
both joining flanges are emitted with height 5.725 — above the emission
threshold 5 but below the hole threshold 6 — and carry an empty hole
list, contradicting "every emitted flange receives at least one hole". -/
theorem c4_flange_without_hole_cex :
    isWideDeviceMode pShortFlange.width pShortFlange.tolerance = true ∧
    openingYW pShortFlange = 5.725 ∧ (5 : ℚ) < 5.725 ∧
    flangeHoleYs 5.725 = [] ∧
    flangeDataOf (generateWideBracket pShortFlange .left) =
      [(5.725, []), (5.725, [])] := by
  have hru : rackUnitsW pShortFlange = 1 := by
    show (⌈(25 : ℚ) / 25⌉ : ℤ) = 1
    rw [Int.ceil_eq_iff] <;> norm_num
  have hfh : faceplateHeightW pShortFlange = 44.45 := by
    rw [faceplateHeightW, hru]; norm_num [RACK_UNIT_HEIGHT]
  have hoh : openingHeightP pShortFlange = 33 := by norm_num [openingHeightP, pShortFlange]
  have hoy : openingYW pShortFlange = 5.725 := by rw [openingYW, hfh, hoh]; norm_num
  have hfl : flangeHoleYs 5.725 = [] := by rw [flangeHoleYs, if_neg]; norm_num
  refine ⟨?_, hoy, by norm_num, hfl, ?_⟩
  · simp [isWideDeviceMode, pShortFlange]; norm_num
  · rw [flangeDataOf_wide, hoy, hfh, hoh,
      show (44.45 : ℚ) - 5.725 - 33 = 5.725 by norm_num, hfl]
    norm_num

lemma chain_arith_aux (a d : ℚ) (n s : ℕ) :
    List.Chain' (fun x y => y - x = d)
      ((List.range' s n).map fun i : ℕ => a + (i : ℚ) * d) := by
  induction n generalizing s with
  | zero => simp
  | succ m ih =>
    rw [List.range'_succ, List.map_cons]
    cases m with
    | zero => simp
    | succ k =>
      rw [List.range'_succ, List.map_cons, List.chain'_cons]
      refine ⟨by push_cast; ring, ?_⟩
      have h2 := ih (s + 1)
      rw [List.range'_succ, List.map_cons] at h2
      exact h2

lemma chain_arith (n : ℕ) (a d : ℚ) :
    List.Chain' (fun x y => y - x = d)
      ((List.range n).map fun i : ℕ => a + (i : ℚ) * d) := by
  rw [List.range_eq_range']
  exact chain_arith_aux a d n 0

lemma evenlySpaced_flangeHoleYs (fh : ℚ) : evenlySpaced (flangeHoleYs fh) := by
  rw [flangeHoleYs]
  split_ifs with h6 h20
  · by_cases hn : 1 < (max 1 ⌊fh / 20⌋ : ℤ)
    · refine ⟨(fh - 2 * 5) / ((max 1 ⌊fh / 20⌋ : ℚ) - 1), ?_⟩
      simp only [Int.cast_max, Int.cast_one, if_pos hn]
      exact chain_arith _ 5 _
    · have h1 : max 1 ⌊fh / 20⌋ = 1 := le_antisymm (not_lt.mp hn) (le_max_left _ _)
      refine ⟨0, ?_⟩
      simp only [h1, if_neg hn]
      simp [List.range_succ]
  · exact ⟨0, by simp⟩
  · exact ⟨0, by simp⟩

lemma evenlySpaced_joiningHoleYs (fh : ℚ) : evenlySpaced (joiningHoleYs fh) := by
  refine ⟨fh / ((numJoiningHoles fh : ℚ) + 1), ?_⟩
  have e : joiningHoleYs fh =
      (List.range (numJoiningHoles fh).toNat).map fun i : ℕ =>
        fh / ((numJoiningHoles fh : ℚ) + 1) +
          (i : ℚ) * (fh / ((numJoiningHoles fh : ℚ) + 1)) := by
    rw [joiningHoleYs]
    exact List.map_congr_left fun i _ => by ring
  rw [e]
  exact chain_arith _ _ _

lemma joiningHoleYs_length (fh : ℚ) : 2 ≤ (joiningHoleYs fh).length := by
  rw [joiningHoleYs]
  simp only [List.length_map, List.length_range]
  have h2 : (2 : ℤ) ≤ numJoiningHoles fh := le_max_left _ _
  omega

lemma flangeHoleYs_ne_nil (fh : ℚ) (h : 6 ≤ fh) : flangeHoleYs fh ≠ [] := by
  rw [flangeHoleYs, if_pos h]
  split_ifs with h20
  · have h1 : (1 : ℤ) ≤ max 1 ⌊fh / 20⌋ := le_max_left _ _
    simp only [ne_eq, List.map_eq_nil_iff, List.range_eq_nil]
    omega
  · simp

/-- C4 (amended): joining-flange hole Y-positions are evenly spaced;
the single-mode full-height flange always gets at least two holes
(numJoiningHoles >= 2); a wide-mode flange of height at least 6 gets at
least one hole; but a wide-mode flange emitted with height in (5, 6)
gets no holes at all. -/
theorem c4_flange_holes :
    (∀ fh : ℚ, fh < 6 → flangeHoleYs fh = []) ∧
    (∀ fh : ℚ, 6 ≤ fh → flangeHoleYs fh ≠ []) ∧
    (∀ fh : ℚ, evenlySpaced (flangeHoleYs fh)) ∧
    (∀ fh : ℚ, 2 ≤ (joiningHoleYs fh).length ∧ evenlySpaced (joiningHoleYs fh)) ∧
    (∀ fh : ℚ, 2 ≤ numJoiningHoles fh) ∧
    (∀ (p : Params) (side : Side),
      flangeDataOf (generateWideBracket p side) =
        (if 5 < openingYW p then [(openingYW p, flangeHoleYs (openingYW p))] else []) ++
        (if 5 < faceplateHeightW p - openingYW p - openingHeightP p then
          [(faceplateHeightW p - openingYW p - openingHeightP p,
            flangeHoleYs (faceplateHeightW p - openingYW p - openingHeightP p))]
         else [])) ∧
    (∀ p : Params, flangeDataOf (generateSingleMount p) =
      [(faceplateHeightS p, joiningHoleYs (faceplateHeightS p))]) :=
  ⟨fun fh h => by rw [flangeHoleYs, if_neg (not_le.mpr h)],
   flangeHoleYs_ne_nil,
   evenlySpaced_flangeHoleYs,
   fun fh => ⟨joiningHoleYs_length fh, evenlySpaced_joiningHoleYs fh⟩,
   fun fh => le_max_left _ _,
   flangeDataOf_wide,
   flangeDataOf_single⟩

/-- Witness for C4 (amended): a flange span of 5.725 gets no holes, a
span of 6 gets at least one, and the single-mode flange of the default
faceplate height gets at least two. -/
theorem c4_flange_holes_witness :
    flangeHoleYs 5.725 = [] ∧ flangeHoleYs 6 ≠ [] ∧
    2 ≤ (joiningHoleYs 88.9).length :=
  ⟨c4_flange_holes.1 5.725 (by norm_num), c4_flange_holes.2.1 6 (by norm_num),
   (c4_flange_holes.2.2.2.1 88.9).1⟩

/-- C6: for non-blank parameters the faceplate is built from at most four
box pieces around the opening, and each of the four candidate pieces is
emitted exactly when its computed dimension (bottom/top height,
left/right width) is strictly positive — in single mode and in both
wide-mode halves; full-span openings just drop the piece, no error
path exists. -/
theorem c6_face_pieces (p : Params) (hb : p.isBlank = false) :
    (facePiecesOf (generateSingleMount p) =
      (if 0 < openingYS p then [FacePos.bottom] else []) ++
      (if 0 < faceplateHeightS p - openingYS p - openingHeightP p then [FacePos.top]
       else []) ++
      (if 0 < openingXS p then [FacePos.leftSide] else []) ++
      (if 0 < RACK_HALF_WIDTH - openingXS p - openingWidthP p then [FacePos.rightSide]
       else [])) ∧
    (facePiecesOf (generateSingleMount p)).length ≤ 4 ∧
    ∀ side,
      (facePiecesOf (generateWideBracket p side) =
        (if 0 < openingYW p then [FacePos.bottom] else []) ++
        (if 0 < faceplateHeightW p - openingYW p - openingHeightP p then [FacePos.top]
         else []) ++
        (if 0 < localOpeningStart p side then [FacePos.leftSide] else []) ++
        (if 0 < RACK_HALF_WIDTH - localOpeningEnd p side then [FacePos.rightSide]
         else [])) ∧
      (facePiecesOf (generateWideBracket p side)).length ≤ 4 := by
  refine ⟨facePiecesOf_single p hb, ?_, fun side => ⟨facePiecesOf_wide p side hb, ?_⟩⟩
  · rw [facePiecesOf_single p hb]
    split_ifs <;> simp
  · rw [facePiecesOf_wide p side hb]
    split_ifs <;> simp

/-- Witness for C6 at the default parameters: all four pieces emitted. -/
theorem c6_face_pieces_witness :
    facePiecesOf (generateSingleMount pDefault) =
      [FacePos.bottom, FacePos.top, FacePos.leftSide, FacePos.rightSide] ∧
    (facePiecesOf (generateSingleMount pDefault)).length ≤ 4 := by
  have hru : rackUnitsS pDefault = 2 := by
    show (⌈(44 : ℚ) / 35⌉ : ℤ) = 2
    rw [Int.ceil_eq_iff] <;> norm_num
  have hfh : faceplateHeightS pDefault = 88.9 := by
    rw [faceplateHeightS, hru]; norm_num [RACK_UNIT_HEIGHT]
  have hox : openingXS pDefault = 60.5 := by
    rw [openingXS]; norm_num [openingWidthP, pDefault, RACK_HALF_WIDTH]
  have hoy : openingYS pDefault = 20.45 := by
    rw [openingYS, hfh]; norm_num [openingHeightP, pDefault]
  have howp : openingWidthP pDefault = 104 := by norm_num [openingWidthP, pDefault]
  have hohp : openingHeightP pDefault = 48 := by norm_num [openingHeightP, pDefault]
  have h := c6_face_pieces pDefault rfl
  refine ⟨?_, h.2.1⟩
  rw [h.1, hfh, hoy, hox, howp, hohp]
  norm_num [RACK_HALF_WIDTH]

end RackMount

namespace RackMount

lemma le_end_left (p : Params) (h : 0 ≤ openingWidthP p) :
    localOpeningEnd p .left = RACK_HALF_WIDTH := by
  show min RACK_HALF_WIDTH (fullOpeningX p + openingWidthP p) = RACK_HALF_WIDTH
  rw [min_eq_left]
  unfold fullOpeningX FULL_RACK_WIDTH RACK_HALF_WIDTH
  linarith

lemma ls_right (p : Params) (h : 0 ≤ openingWidthP p) :
    localOpeningStart p .right = 0 := by
  show max 0 (fullOpeningX p - RACK_HALF_WIDTH) = 0
  rw [max_eq_left]
  unfold fullOpeningX FULL_RACK_WIDTH RACK_HALF_WIDTH
  linarith

lemma le_end_right (p : Params) (h : 0 ≤ openingWidthP p) :
    localOpeningEnd p .right = RACK_HALF_WIDTH - localOpeningStart p .left := by
  show min RACK_HALF_WIDTH (fullOpeningX p + openingWidthP p - RACK_HALF_WIDTH)
      = RACK_HALF_WIDTH - max 0 (fullOpeningX p)
  have e1 : fullOpeningX p + openingWidthP p - RACK_HALF_WIDTH
      = RACK_HALF_WIDTH - fullOpeningX p := by
    unfold fullOpeningX FULL_RACK_WIDTH; ring
  rw [e1]
  rcases le_total 0 (fullOpeningX p) with hf | hf
  · rw [max_eq_right hf, min_eq_right (by linarith)]
  · rw [max_eq_left hf, min_eq_left (by linarith), sub_zero]

lemma lw_right (p : Params) (h : 0 ≤ openingWidthP p) :
    localOpeningWidth p .right = localOpeningWidth p .left := by
  rw [localOpeningWidth, localOpeningWidth, le_end_right p h, ls_right p h,
    le_end_left p h]
  ring

lemma mirror_widePlate (p : Params) (h : 0 ≤ openingWidthP p) :
    (widePlate p .left).map mirrorF = widePlate p .right := by
  unfold widePlate
  rw [le_end_left p h, ls_right p h, le_end_right p h]
  simp only [List.map_append, apply_ite (List.map mirrorF), List.map_cons, List.map_nil,
    mirrorF, mirrorFacePos, mirrorX]
  ring_nf
  simp [lt_irrefl]

end RackMount

namespace RackMount

lemma lw_left (p : Params) (h : 0 ≤ openingWidthP p) :
    localOpeningWidth p .left = RACK_HALF_WIDTH - localOpeningStart p .left := by
  rw [localOpeningWidth, le_end_left p h]

lemma mirror_wideShelf (p : Params) (h : 0 ≤ openingWidthP p) :
    (wideShelf p .left).map mirrorF = wideShelf p .right := by
  unfold wideShelf
  rw [lw_right p h, ls_right p h, le_end_right p h, lw_left p h]
  simp only [List.map_append, apply_ite (List.map mirrorF), List.map_cons, List.map_nil,
    mirrorF, mirrorX]
  ring_nf

lemma mirror_wideEar (p : Params) :
    (wideEar p .left).map mirrorF = wideEar p .right := by
  unfold wideEar
  simp only [apply_ite (List.map mirrorF), List.map_cons, List.map_nil, mirrorF, flipSide,
    mirrorX]
  ring_nf

lemma mirror_wideFlanges (p : Params) :
    (wideFlanges p .left).map mirrorF = wideFlanges p .right := by
  unfold wideFlanges
  simp only [List.map_append, apply_ite (List.map mirrorF), List.map_cons, List.map_nil,
    mirrorF]
  ring_nf

lemma mirror_wideCornerGussets (p : Params) :
    (wideCornerGussets p .left).map mirrorF = wideCornerGussets p .right := by
  unfold wideCornerGussets
  simp only [List.map_append, apply_ite (List.map mirrorF), List.map_cons, List.map_nil,
    mirrorF, mirrorX, Bool.not_true]
  ring_nf

end RackMount

namespace RackMount

/-- C9: in wide mode the left half maps feature-by-feature onto the right
half under reflection across the shared rack centerline. -/
theorem c9_mirror (p : Params) (hw : 200 < openingWidthP p) :
    (generateWideBracket p .left).map mirrorF = generateWideBracket p .right ∧
    (generateWideBracket p .left).length = (generateWideBracket p .right).length := by
  have h : 0 ≤ openingWidthP p := le_trans (by norm_num) (le_of_lt hw)
  have hm : (generateWideBracket p .left).map mirrorF = generateWideBracket p .right := by
    unfold generateWideBracket
    rw [List.map_append, List.map_append, List.map_append, List.map_append,
      mirror_widePlate p h, mirror_wideShelf p h, mirror_wideEar p,
      mirror_wideFlanges p, mirror_wideCornerGussets p]
  exact ⟨hm, by rw [← hm, List.length_map]⟩

/-- Witness for C9 at width 210, tolerance 2 (opening width 214). -/
theorem c9_mirror_witness :
    (generateWideBracket pWide .left).map mirrorF = generateWideBracket pWide .right :=
  (c9_mirror pWide (by norm_num [openingWidthP, pWide])).1

end RackMount
